import Mathlib

/-
  Verification of the InteractiveButton component (carbon-components-react
  Button, src/unnamed/part_000) against its natural-language specification.

  The component's configuration, interaction state, class composition, host
  element selection, tooltip handlers, debounced hide timer and document-level
  Escape listener are shallowly embedded as pure Lean functions; class tokens
  are an inductive type (the shared style token stands for the corresponding
  generated class string).
-/

namespace CarbonButton

/-- The closed set of visual button kinds (prop-types/types ButtonKinds;
Modelled from the spec: "visual kind (one of a fixed enumerated set)" — the
file defining the list is not under src/, only `ghost` is distinguished by
the component itself). -/
inductive ButtonKind
  | primary
  | secondary
  | tertiary
  | ghost
  | danger
  | dangerPrimary
deriving DecidableEq, Repr

/-- Size variants accepted by the `size` prop (part_000 line 307). -/
inductive Size
  | default
  | field
  | small
  | sm
  | lg
  | xl
deriving DecidableEq, Repr

/-- Tooltip directions (part_000 line 333). -/
inductive TooltipPosition
  | top
  | right
  | bottom
  | left
deriving DecidableEq, Repr

/-- Tooltip alignments (part_000 line 327). -/
inductive TooltipAlignment
  | start
  | center
  | end_
deriving DecidableEq, Repr

/-- JavaScript truthiness of an optional string prop: absent and the empty
string are falsy. -/
def strTruthy : Option String → Bool
  | none => false
  | some s => !s.isEmpty

/-- ButtonConfiguration: the caller-supplied props of the component, with the
defaults of Button.defaultProps (part_000 lines 341-349). `renderIcon`,
`children` and `iconDescription` are carried as the data the embedded
functions consume. -/
structure ButtonConfig where
  as : Option String := none
  className : Option String := none
  disabled : Bool := false
  small : Bool := false
  size : Size := Size.default
  kind : ButtonKind := ButtonKind.primary
  href : Option String := none
  isSelected : Bool := false
  hasIconOnly : Bool := false
  tooltipPosition : Option TooltipPosition := some TooltipPosition.top
  tooltipAlignment : Option TooltipAlignment := some TooltipAlignment.center
deriving DecidableEq, Repr

/-- InteractionState: the three useState flags of an instance
(part_000 lines 67-69). -/
structure InteractionState where
  allowTooltipVisibility : Bool
  isHovered : Bool
  isFocused : Bool
deriving DecidableEq, Repr

/-- Initial state on mount: useState(true), useState(false), useState(false). -/
def initialState : InteractionState :=
  { allowTooltipVisibility := true, isHovered := false, isFocused := false }

/-- The class tokens the component may emit (part_000 lines 131-148); each
constructor stands for the corresponding generated class string. -/
inductive ClassToken
  | custom (name : String)
  | btn
  | btnField
  | btnSm
  | btnLg
  | btnXl
  | btnKind (k : ButtonKind)
  | btnDisabled
  | tooltipHidden
  | tooltipVisible
  | btnIconOnly
  | btnSelected
  | tooltipTrigger
  | tooltipA11y
  | tooltipPos (p : TooltipPosition)
  | tooltipAlign (a : TooltipAlignment)
deriving DecidableEq, Repr

/-- classNames semantics for one gated token: included exactly when its
boolean condition holds. -/
def cls (p : Prop) [Decidable p] (t : ClassToken) : List ClassToken :=
  if p then [t] else []

/-- buttonClasses (part_000 lines 131-148): the set of class tokens computed
from the configuration and the interaction state, one gate per token, in
source order. -/
def buttonClasses (cfg : ButtonConfig) (st : InteractionState) : List ClassToken :=
  (match cfg.className with
   | some s => [ClassToken.custom s]
   | none => []) ++
  cls True ClassToken.btn ++
  cls (cfg.size = Size.field) ClassToken.btnField ++
  cls (cfg.size = Size.small ∨ cfg.size = Size.sm ∨ cfg.small = true) ClassToken.btnSm ++
  cls (cfg.size = Size.lg) ClassToken.btnLg ++
  cls (cfg.size = Size.xl) ClassToken.btnXl ++
  cls True (ClassToken.btnKind cfg.kind) ++
  cls (cfg.disabled = true) ClassToken.btnDisabled ++
  cls (cfg.hasIconOnly = true ∧ st.allowTooltipVisibility = false) ClassToken.tooltipHidden ++
  cls (st.isHovered = true) ClassToken.tooltipVisible ++
  cls (cfg.hasIconOnly = true) ClassToken.btnIconOnly ++
  cls (cfg.hasIconOnly = true ∧ cfg.isSelected = true ∧ cfg.kind = ButtonKind.ghost)
    ClassToken.btnSelected ++
  cls (cfg.hasIconOnly = true) ClassToken.tooltipTrigger ++
  cls (cfg.hasIconOnly = true) ClassToken.tooltipA11y ++
  (match cfg.tooltipPosition with
   | some p => cls (cfg.hasIconOnly = true) (ClassToken.tooltipPos p)
   | none => []) ++
  (match cfg.tooltipAlignment with
   | some a => cls (cfg.hasIconOnly = true) (ClassToken.tooltipAlign a)
   | none => [])

/-- The rendered host element. -/
inductive HostElement
  | custom (name : String)
  | anchor
  | button
deriving DecidableEq, Repr

/-- Host-element selection (part_000 lines 164, 181-190): an explicit `as`
override wins; else an anchor when `href` is truthy and the control is not
disabled; else a native button. -/
def hostElement (cfg : ButtonConfig) : HostElement :=
  if strTruthy cfg.as then HostElement.custom (cfg.as.getD "")
  else if strTruthy cfg.href && !cfg.disabled then HostElement.anchor
  else HostElement.button

/-- The aria-pressed attribute of the rendered host (part_000 lines 165-190):
computed as `isSelected` when icon-only and ghost, else null; dropped entirely
when otherProps is replaced by anchorProps on the anchor branch. -/
def renderedAriaPressed (cfg : ButtonConfig) : Option Bool :=
  let base : Option Bool :=
    if cfg.hasIconOnly = true ∧ cfg.kind = ButtonKind.ghost then some cfg.isSelected
    else none
  match hostElement cfg with
  | HostElement.anchor => none
  | _ => base

/-- The iconDescription custom prop validator (part_000 lines 249-256): an
Error is returned exactly when a truthy renderIcon is given with neither
truthy children nor a truthy iconDescription; the booleans are the JavaScript
truthiness of the respective props. -/
def iconDescriptionValidator (renderIcon : Bool) (children : Bool)
    (iconDescription : Bool) : Option String :=
  if renderIcon && !children && !iconDescription then
    some "renderIcon property specified without also providing an iconDescription property."
  else none

/-- A DOM element of the page, as far as closeTooltips observes it: its
identity, whether it matches the `.--tooltip--a11y` selector, and whether it
currently carries the shared `--tooltip--hidden` class. -/
structure DomNode where
  id : Nat
  isTooltipA11y : Bool
  hidden : Bool
deriving DecidableEq, Repr

/-- Modelled from the spec: the toggleClass utility (tools/toggleClass, not
under src/) "toggling a shared hidden-class on every matching element": sets
the presence of the hidden class on a node to the given flag. -/
def toggleHiddenClass (node : DomNode) (add : Bool) : DomNode :=
  { node with hidden := add }

/-- closeTooltips (part_000 lines 73-82): over every element of the page
matching the a11y-tooltip selector, toggle the shared hidden class on with
flag `node ≠ currentTarget`, hence off on the current target itself. -/
def closeTooltips (targetId : Nat) (page : List DomNode) : List DomNode :=
  page.map fun node =>
    if node.isTooltipA11y then toggleHiddenClass node (decide (node.id ≠ targetId))
    else node

/-- The ids of the a11y-tooltip elements on the page that are visible, i.e.
not carrying the hidden class. -/
def visibleTooltipIds (page : List DomNode) : List Nat :=
  (page.filter fun node => node.isTooltipA11y && !node.hidden).map DomNode.id

/-- handleFocus, local state part (part_000 lines 84-89): after closing the
other tooltips it runs setIsHovered(!isHovered), setIsFocused(true),
setAllowTooltipVisibility(true). -/
def handleFocus (s : InteractionState) : InteractionState :=
  { allowTooltipVisibility := true, isHovered := !s.isHovered, isFocused := true }

/-- handleBlur (part_000 lines 91-95): all three flags false, immediately. -/
def handleBlur (_ : InteractionState) : InteractionState :=
  { allowTooltipVisibility := false, isHovered := false, isFocused := false }

/-- An instance together with its pending debounced hide timer: `some r`
means a scheduled hide with r milliseconds left before it fires. -/
structure ButtonInstance where
  state : InteractionState
  tooltipTimeout : Option Nat
deriving DecidableEq, Repr

/-- handleMouseEnter, local state part (part_000 lines 97-109): hovered true,
any pending hide timer cleared, tooltip visibility allowed (on both the
tooltip-text-target branch and the general branch). -/
def handleMouseEnterInst (_targetIsTooltipText : Bool) (inst : ButtonInstance) :
    ButtonInstance :=
  { state :=
      { inst.state with isHovered := true, allowTooltipVisibility := true },
    tooltipTimeout := none }

/-- handleMouseEnter including its page effect (part_000 lines 97-109): when
the event target is the tooltip text node itself the handler returns before
closeTooltips; otherwise it closes all other tooltips on the page. -/
def handleMouseEnterFull (targetIsTooltipText : Bool) (targetId : Nat)
    (page : List DomNode) (inst : ButtonInstance) : List DomNode × ButtonInstance :=
  (if targetIsTooltipText then page else closeTooltips targetId page,
   handleMouseEnterInst targetIsTooltipText inst)

/-- handleFocus including its page effect (part_000 lines 84-89):
closeTooltips first, then the local state updates. -/
def handleFocusFull (targetId : Nat) (page : List DomNode) (inst : ButtonInstance) :
    List DomNode × ButtonInstance :=
  (closeTooltips targetId page, { inst with state := handleFocus inst.state })

/-- handleMouseLeave (part_000 lines 111-118): when not focused, schedule the
hide (allowTooltipVisibility false, hovered false) after the fixed 100 ms
delay; when focused, do nothing. -/
def handleMouseLeaveInst (inst : ButtonInstance) : ButtonInstance :=
  if inst.state.isFocused then inst else { inst with tooltipTimeout := some 100 }

/-- The body of the scheduled hide callback (part_000 lines 113-116). -/
def fireHideTimer (s : InteractionState) : InteractionState :=
  { s with allowTooltipVisibility := false, isHovered := false }

/-- Advancing wall-clock time by ms milliseconds: the pending timer fires
(returning true) exactly when its remaining delay elapses. -/
def tickTimer (ms : Nat) (inst : ButtonInstance) : ButtonInstance × Bool :=
  match inst.tooltipTimeout with
  | none => (inst, false)
  | some r =>
    if r ≤ ms then ({ state := fireHideTimer inst.state, tooltipTimeout := none }, true)
    else ({ inst with tooltipTimeout := some (r - ms) }, false)

/-- The discrete events a single instance observes: pointer enter (with
whether the event target is the tooltip text node), pointer leave, and the
passage of time. -/
inductive BtnEvent
  | mouseEnter (targetIsTooltipText : Bool)
  | mouseLeave
  | tick (ms : Nat)
deriving DecidableEq, Repr

/-- One event step of an instance, also reporting whether the hide timer
fired during the step. -/
def stepEvent (ev : BtnEvent) (inst : ButtonInstance) : ButtonInstance × Bool :=
  match ev with
  | BtnEvent.mouseEnter tgt => (handleMouseEnterInst tgt inst, false)
  | BtnEvent.mouseLeave => (handleMouseLeaveInst inst, false)
  | BtnEvent.tick ms => tickTimer ms inst

/-- Running a list of events, reporting whether the hide timer fired at any
point of the run. -/
def runEvents : List BtnEvent → ButtonInstance → ButtonInstance × Bool
  | [], inst => (inst, false)
  | ev :: rest, inst =>
    ((runEvents rest (stepEvent ev inst).1).1,
     (stepEvent ev inst).2 || (runEvents rest (stepEvent ev inst).1).2)

/-- One rapid hover cycle: the pointer leaves, t milliseconds pass, and the
pointer re-enters the control. -/
def rapidCycle (t : Nat) : List BtnEvent :=
  [BtnEvent.mouseLeave, BtnEvent.tick t, BtnEvent.mouseEnter false]

/-- A rapid enter/leave sequence: one rapid cycle per listed duration. -/
def rapidTrace (ts : List Nat) : List BtnEvent :=
  (ts.map rapidCycle).flatten

/-- A keyboard event, carrying its key name. -/
structure KeyEvent where
  key : String
deriving DecidableEq, Repr

/-- Modelled from the spec: the keyboard matcher (internal/keyboard, not
under src/), "a keyboard-event matcher utility recognizing the Escape key":
matches(event, [keys.Escape]) holds exactly when the event's key is Escape. -/
def matchesEscape (ev : KeyEvent) : Bool :=
  ev.key == "Escape"

/-- handleEscKeyDown (part_000 lines 121-126): on an Escape keydown, force
allowTooltipVisibility and isHovered false; any other key leaves the state
untouched. isFocused is not consulted and not changed. -/
def handleEscKeyDown (ev : KeyEvent) (s : InteractionState) : InteractionState :=
  if matchesEscape ev then
    { s with allowTooltipVisibility := false, isHovered := false }
  else s

/-- A document keydown reaches the document-level listener of every mounted
instance (the listener is installed on document, part_000 line 127). -/
def documentKeydownDispatch (ev : KeyEvent) (instances : List InteractionState) :
    List InteractionState :=
  instances.map (handleEscKeyDown ev)

/-- document.addEventListener: appends the handler (identified by a number,
one fresh closure per mounted instance) to the document's keydown listener
list. -/
def addKeydownListener (h : Nat) (doc : List Nat) : List Nat :=
  doc ++ [h]

/-- document.removeEventListener: removes the matching handler occurrence. -/
def removeKeydownListener (h : Nat) (doc : List Nat) : List Nat :=
  doc.erase h

/-- One mount/unmount cycle of an instance, as the effect (part_000 lines
120-129) acts on the document's listener list: addEventListener on mount,
the cleanup's removeEventListener on unmount. -/
def mountUnmountCycle (h : Nat) (doc : List Nat) : List Nat :=
  removeKeydownListener h (addKeydownListener h doc)

/-- n successive mount/unmount cycles. -/
def mountUnmountCycles (n : Nat) (h : Nat) (doc : List Nat) : List Nat :=
  match n with
  | 0 => doc
  | Nat.succ m => mountUnmountCycles m h (mountUnmountCycle h doc)

/-- The unmount cleanup as written (part_000 line 128): it removes the
document keydown listener and does nothing else — in particular it leaves
the instance's pending tooltipTimeout untouched. -/
def unmountCleanup (h : Nat) (doc : List Nat) (inst : ButtonInstance) :
    List Nat × ButtonInstance :=
  (removeKeydownListener h doc, inst)

/-! Theorems -/

/-- C1 counterexample: handleFocus runs setIsHovered(!isHovered), toggling
the flag; from a state whose isHovered is already true, the focus handler
leaves isHovered = false, so hovered is not unconditionally true after the
handler runs. -/
theorem C1_counterexample :
    ¬ ∀ s : InteractionState, (handleFocus s).isHovered = true := by
  intro h
  exact absurd
    (h { allowTooltipVisibility := true, isHovered := true, isFocused := false })
    (by decide)

/-- C1 (amended): when the control receives focus the component performs the
close-all-other-tooltips step and sets focused = true and tooltip visibility
allowed = true, but toggles hovered to the negation of its prior value
(hovered is true after the handler only when it was false before). -/
theorem C1_focus_amended (targetId : Nat) (page : List DomNode)
    (inst : ButtonInstance) :
    handleFocusFull targetId page inst =
      (closeTooltips targetId page,
       { state :=
           { allowTooltipVisibility := true,
             isHovered := !inst.state.isHovered,
             isFocused := true },
         tooltipTimeout := inst.tooltipTimeout }) := rfl

/-- C3: with no truthy host override, a disabled control renders as a native
button even when an href is supplied, and the anchor host is chosen exactly
when href is truthy and the control is not disabled. -/
theorem C3_host_selection (cfg : ButtonConfig) (h : strTruthy cfg.as = false) :
    (cfg.disabled = true → hostElement cfg = HostElement.button) ∧
    (hostElement cfg = HostElement.anchor ↔
      (strTruthy cfg.href = true ∧ cfg.disabled = false)) := by
  constructor
  · intro hd
    simp [hostElement, h, hd]
  · cases hhref : strTruthy cfg.href <;> cases hd : cfg.disabled <;>
      simp [hostElement, h, hhref, hd]

/-- C3 witness at href = "#": disabled forces the button host, not disabled
yields the anchor host. -/
theorem C3_witness :
    hostElement { href := some "#", disabled := true } = HostElement.button ∧
    hostElement { href := some "#", disabled := false } = HostElement.anchor :=
  ⟨(C3_host_selection { href := some "#", disabled := true } (by decide)).1 rfl,
   (C3_host_selection { href := some "#", disabled := false } (by decide)).2.mpr
     (by decide)⟩

/-- C4: an Escape keydown dispatched on the document forces
allowTooltipVisibility = false and isHovered = false on every mounted
instance, whatever its state — in particular also on focused instances. -/
theorem C4_escape_closes_all (ev : KeyEvent) (h : matchesEscape ev = true)
    (instances : List InteractionState) :
    ∀ s ∈ documentKeydownDispatch ev instances,
      s.allowTooltipVisibility = false ∧ s.isHovered = false := by
  intro s hs
  simp only [documentKeydownDispatch, List.mem_map] at hs
  rcases hs with ⟨t, _, rfl⟩
  simp [handleEscKeyDown, h]

/-- C4 witness: a focused, hovered instance after the Escape dispatch. -/
theorem C4_witness :
    (handleEscKeyDown { key := "Escape" }
      { allowTooltipVisibility := true, isHovered := true,
        isFocused := true }).allowTooltipVisibility = false ∧
    (handleEscKeyDown { key := "Escape" }
      { allowTooltipVisibility := true, isHovered := true,
        isFocused := true }).isHovered = false :=
  C4_escape_closes_all { key := "Escape" } (by decide)
    [{ allowTooltipVisibility := true, isHovered := true, isFocused := true }]
    (handleEscKeyDown { key := "Escape" }
      { allowTooltipVisibility := true, isHovered := true, isFocused := true })
    (by decide)

/-- C5: mounting appends exactly one document keydown listener, the unmount
cleanup removes it, and N mount/unmount cycles leave the document's listener
list at its baseline. -/
theorem C5_listener_roundtrip (doc : List Nat) (h : Nat) (hnew : h ∉ doc)
    (n : Nat) :
    (addKeydownListener h doc).length = doc.length + 1 ∧
    (addKeydownListener h doc).count h = doc.count h + 1 ∧
    mountUnmountCycle h doc = doc ∧
    mountUnmountCycles n h doc = doc := by
  have hcycle : mountUnmountCycle h doc = doc := by
    unfold mountUnmountCycle removeKeydownListener addKeydownListener
    rw [List.erase_append_right _ hnew]
    simp
  refine ⟨by simp [addKeydownListener], by simp [addKeydownListener], hcycle, ?_⟩
  induction n with
  | zero => rfl
  | succ m ih =>
    rw [mountUnmountCycles, hcycle]
    exact ih

/-- C5 witness: three mount/unmount cycles of a fresh handler return the
document to its baseline listener list. -/
theorem C5_witness : mountUnmountCycles 3 7 [5] = [5] :=
  (C5_listener_roundtrip [5] 7 (by decide) 3).2.2.2

/-- C7 (code bug evidence): the unmount cleanup removes only the document
keydown listener; the hide timer scheduled by a pointer leave survives the
cleanup with its 100 ms delay still pending, and firing it afterwards still
mutates the unmounted instance's state. -/
theorem C7_timer_survives_unmount :
    ((unmountCleanup 7 [7]
        (handleMouseLeaveInst
          { state := { allowTooltipVisibility := true, isHovered := true,
                       isFocused := false },
            tooltipTimeout := none })).2.tooltipTimeout = some 100) ∧
    ((tickTimer 100 (unmountCleanup 7 [7]
        (handleMouseLeaveInst
          { state := { allowTooltipVisibility := true, isHovered := true,
                       isFocused := false },
            tooltipTimeout := none })).2).2 = true) ∧
    ((unmountCleanup 7 [7]
        (handleMouseLeaveInst
          { state := { allowTooltipVisibility := true, isHovered := true,
                       isFocused := false },
            tooltipTimeout := none })).1 = []) := by decide

/-- C9: the iconDescription validator returns an error exactly when a truthy
renderIcon comes with neither truthy children nor a truthy iconDescription;
supplying children or an iconDescription yields no error. -/
theorem C9_icon_description_validation (renderIcon children iconDescription : Bool) :
    (renderIcon = true → children = false → iconDescription = false →
      iconDescriptionValidator renderIcon children iconDescription ≠ none) ∧
    ((children = true ∨ iconDescription = true) →
      iconDescriptionValidator renderIcon children iconDescription = none) := by
  cases renderIcon <;> cases children <;> cases iconDescription <;>
    simp [iconDescriptionValidator]

/-- C9 witness: icon renderer alone is an error; adding children clears it. -/
theorem C9_witness :
    iconDescriptionValidator true false false ≠ none ∧
    iconDescriptionValidator true true false = none :=
  ⟨(C9_icon_description_validation true false false).1 rfl rfl rfl,
   (C9_icon_description_validation true true false).2 (Or.inl rfl)⟩

/-- Membership in one gated token list: the token is there exactly when the
gate holds. -/
theorem mem_cls (p : Prop) [Decidable p] (t x : ClassToken) :
    x ∈ cls p t ↔ (p ∧ x = t) := by
  unfold cls
  split <;> simp_all

/-- The selected token is emitted exactly for icon-only, selected, ghost
configurations. -/
theorem btnSelected_mem_iff (cfg : ButtonConfig) (st : InteractionState) :
    ClassToken.btnSelected ∈ buttonClasses cfg st ↔
      (cfg.hasIconOnly = true ∧ cfg.isSelected = true ∧
        cfg.kind = ButtonKind.ghost) := by
  cases hcn : cfg.className <;> cases hp : cfg.tooltipPosition <;>
    cases ha : cfg.tooltipAlignment <;>
      simp [buttonClasses, hcn, hp, ha, mem_cls]

/-- The tooltip-visible token is emitted exactly when the hovered flag is
true, with no icon-only gate. -/
theorem tooltipVisible_mem_iff (cfg : ButtonConfig) (st : InteractionState) :
    ClassToken.tooltipVisible ∈ buttonClasses cfg st ↔ st.isHovered = true := by
  cases hcn : cfg.className <;> cases hp : cfg.tooltipPosition <;>
    cases ha : cfg.tooltipAlignment <;>
      simp [buttonClasses, hcn, hp, ha, mem_cls]

/-- The tooltip-hidden token is gated on the icon-only flag. -/
theorem tooltipHidden_mem_iff (cfg : ButtonConfig) (st : InteractionState) :
    ClassToken.tooltipHidden ∈ buttonClasses cfg st ↔
      (cfg.hasIconOnly = true ∧ st.allowTooltipVisibility = false) := by
  cases hcn : cfg.className <;> cases hp : cfg.tooltipPosition <;>
    cases ha : cfg.tooltipAlignment <;>
      simp [buttonClasses, hcn, hp, ha, mem_cls]

/-- The tooltip-position token is gated on the icon-only flag. -/
theorem tooltipPos_mem_iff (cfg : ButtonConfig) (st : InteractionState)
    (p : TooltipPosition) :
    ClassToken.tooltipPos p ∈ buttonClasses cfg st ↔
      (cfg.hasIconOnly = true ∧ cfg.tooltipPosition = some p) := by
  cases hcn : cfg.className <;> cases hp : cfg.tooltipPosition <;>
    cases ha : cfg.tooltipAlignment <;>
      simp [buttonClasses, hcn, hp, ha, mem_cls] <;>
        exact fun _ => eq_comm

/-- The tooltip-alignment token is gated on the icon-only flag. -/
theorem tooltipAlign_mem_iff (cfg : ButtonConfig) (st : InteractionState)
    (a : TooltipAlignment) :
    ClassToken.tooltipAlign a ∈ buttonClasses cfg st ↔
      (cfg.hasIconOnly = true ∧ cfg.tooltipAlignment = some a) := by
  cases hcn : cfg.className <;> cases hp : cfg.tooltipPosition <;>
    cases ha : cfg.tooltipAlignment <;>
      simp [buttonClasses, hcn, hp, ha, mem_cls] <;>
        exact fun _ => eq_comm

/-- C8: a ghost icon-only selected configuration (default host) carries the
selected class token and aria-pressed = true; whenever icon-only and ghost do
not both hold, the selected token is absent and aria-pressed is null. -/
theorem C8_ghost_selected (cfg : ButtonConfig) (st : InteractionState) :
    (cfg.kind = ButtonKind.ghost → cfg.hasIconOnly = true →
      cfg.isSelected = true → cfg.as = none → cfg.href = none →
      ClassToken.btnSelected ∈ buttonClasses cfg st ∧
      renderedAriaPressed cfg = some true) ∧
    (¬ (cfg.hasIconOnly = true ∧ cfg.kind = ButtonKind.ghost) →
      ClassToken.btnSelected ∉ buttonClasses cfg st ∧
      renderedAriaPressed cfg = none) := by
  constructor
  · intro hk hi hs has hhref
    refine ⟨(btnSelected_mem_iff cfg st).mpr ⟨hi, hs, hk⟩, ?_⟩
    simp [renderedAriaPressed, hostElement, has, hhref, strTruthy, hi, hk, hs]
  · intro hnot
    constructor
    · intro hmem
      rcases (btnSelected_mem_iff cfg st).mp hmem with ⟨h1, _, h3⟩
      exact hnot ⟨h1, h3⟩
    · cases hhost : hostElement cfg <;> simp [renderedAriaPressed, hnot, hhost]

/-- A concrete ghost icon-only selected configuration. -/
def cfgGhostSelected : ButtonConfig :=
  { kind := ButtonKind.ghost, isSelected := true, hasIconOnly := true }

/-- C8 witness: the scenario configuration and the all-defaults one. -/
theorem C8_witness :
    (ClassToken.btnSelected ∈ buttonClasses cfgGhostSelected initialState ∧
      renderedAriaPressed cfgGhostSelected = some true) ∧
    (ClassToken.btnSelected ∉ buttonClasses ({} : ButtonConfig) initialState ∧
      renderedAriaPressed ({} : ButtonConfig) = none) :=
  ⟨(C8_ghost_selected cfgGhostSelected initialState).1 rfl rfl rfl rfl rfl,
   (C8_ghost_selected ({} : ButtonConfig) initialState).2 (by decide)⟩

/-- C10: the tooltip-visible token follows the hovered flag alone, for every
configuration including non-icon-only ones, while the tooltip-hidden,
tooltip-position and tooltip-alignment tokens are all suppressed when the
icon-only flag is false. -/
theorem C10_visible_not_gated (cfg : ButtonConfig) (st : InteractionState) :
    (ClassToken.tooltipVisible ∈ buttonClasses cfg st ↔ st.isHovered = true) ∧
    (cfg.hasIconOnly = false →
      ClassToken.tooltipHidden ∉ buttonClasses cfg st ∧
      (∀ p, ClassToken.tooltipPos p ∉ buttonClasses cfg st) ∧
      (∀ a, ClassToken.tooltipAlign a ∉ buttonClasses cfg st)) := by
  refine ⟨tooltipVisible_mem_iff cfg st, fun hio => ⟨?_, ?_, ?_⟩⟩
  · intro hmem
    have := ((tooltipHidden_mem_iff cfg st).mp hmem).1
    rw [hio] at this
    cases this
  · intro p hmem
    have := ((tooltipPos_mem_iff cfg st p).mp hmem).1
    rw [hio] at this
    cases this
  · intro a hmem
    have := ((tooltipAlign_mem_iff cfg st a).mp hmem).1
    rw [hio] at this
    cases this

/-- C10 witness: default (non-icon-only) configuration, hovered and with
visibility disallowed: the visible token is present, the hidden token is
not. -/
theorem C10_witness :
    ClassToken.tooltipVisible ∈ buttonClasses ({} : ButtonConfig)
      { allowTooltipVisibility := false, isHovered := true,
        isFocused := false } ∧
    ClassToken.tooltipHidden ∉ buttonClasses ({} : ButtonConfig)
      { allowTooltipVisibility := false, isHovered := true,
        isFocused := false } :=
  ⟨(C10_visible_not_gated ({} : ButtonConfig)
      { allowTooltipVisibility := false, isHovered := true,
        isFocused := false }).1.mpr rfl,
   ((C10_visible_not_gated ({} : ButtonConfig)
      { allowTooltipVisibility := false, isHovered := true,
        isFocused := false }).2 rfl).1⟩

/-- After closeTooltips, the current target is the only possibly visible
a11y-tooltip element on the page. -/
theorem visible_closeTooltips_subset (targetId : Nat) (page : List DomNode) :
    ∀ i ∈ visibleTooltipIds (closeTooltips targetId page), i = targetId := by
  intro i hi
  simp only [visibleTooltipIds, List.mem_map, List.mem_filter] at hi
  rcases hi with ⟨node2, ⟨hmem, hvis⟩, rfl⟩
  simp only [closeTooltips, List.mem_map] at hmem
  rcases hmem with ⟨node, _, rfl⟩
  by_cases ha : node.isTooltipA11y = true
  · simp only [if_pos ha, toggleHiddenClass] at hvis ⊢
    simp only [Bool.and_eq_true, Bool.not_eq_true', decide_eq_false_iff_not,
      not_not] at hvis
    exact hvis.2
  · simp [ha] at hvis

/-- C2: hover on a button (outside its tooltip text node) and focus on a
button both close every other a11y tooltip on the page within the same
handler, before the local state marks this tooltip visible: afterwards the
event target is the only a11y-tooltip element not carrying the hidden class,
and the handling instance is hovered with visibility allowed. -/
theorem C2_single_tooltip (targetId : Nat) (page : List DomNode)
    (inst : ButtonInstance) :
    (∀ i ∈ visibleTooltipIds (handleMouseEnterFull false targetId page inst).1,
      i = targetId) ∧
    ((handleMouseEnterFull false targetId page inst).2.state.isHovered = true ∧
     (handleMouseEnterFull false targetId page
        inst).2.state.allowTooltipVisibility = true) ∧
    (∀ i ∈ visibleTooltipIds (handleFocusFull targetId page inst).1,
      i = targetId) ∧
    ((handleFocusFull targetId page inst).2.state.allowTooltipVisibility
      = true) := by
  refine ⟨?_, ⟨rfl, rfl⟩, ?_, rfl⟩
  · intro i hi
    exact visible_closeTooltips_subset targetId page i hi
  · intro i hi
    exact visible_closeTooltips_subset targetId page i hi

/-- A page holding two visible a11y-tooltip buttons. -/
def pageTwoTooltips : List DomNode :=
  [{ id := 1, isTooltipA11y := true, hidden := false },
   { id := 2, isTooltipA11y := true, hidden := false }]

/-- C2 witness: hovering button 2 while button 1's tooltip is visible leaves
button 2 as the only visible tooltip. -/
theorem C2_witness :
    (2 : Nat) ∈ visibleTooltipIds (handleMouseEnterFull false 2 pageTwoTooltips
      { state := initialState, tooltipTimeout := none }).1 ∧ (2 : Nat) = 2 :=
  ⟨by decide,
   (C2_single_tooltip 2 pageTwoTooltips
      { state := initialState, tooltipTimeout := none }).1 2 (by decide)⟩

/-- Running a concatenation of event lists runs them in sequence, or-ing the
fired flags. -/
theorem runEvents_append (a b : List BtnEvent) (inst : ButtonInstance) :
    runEvents (a ++ b) inst =
      ((runEvents b (runEvents a inst).1).1,
       ((runEvents a inst).2 || (runEvents b (runEvents a inst).1).2)) := by
  induction a generalizing inst with
  | nil => simp [runEvents]
  | cons ev rest ih =>
    simp [runEvents, ih, Bool.or_assoc]

/-- One rapid cycle (leave, under 100 ms, re-enter) starting with no pending
timer never fires the hide and ends with no pending timer. -/
theorem rapidCycle_no_fire (t : Nat) (ht : t < 100) (inst : ButtonInstance)
    (h0 : inst.tooltipTimeout = none) :
    (runEvents (rapidCycle t) inst).2 = false ∧
    (runEvents (rapidCycle t) inst).1.tooltipTimeout = none := by
  rcases inst with ⟨s, timo⟩
  simp only at h0
  subst h0
  by_cases hf : s.isFocused = true
  · simp [rapidCycle, runEvents, stepEvent, handleMouseLeaveInst, hf, tickTimer,
      handleMouseEnterInst]
  · have h100 : ¬ (100 ≤ t) := by omega
    simp [rapidCycle, runEvents, stepEvent, handleMouseLeaveInst, hf, tickTimer,
      handleMouseEnterInst, h100]

/-- A whole rapid enter/leave sequence whose every gap is under 100 ms never
fires the hide. -/
theorem rapidTrace_no_fire (ts : List Nat) (hts : ∀ t ∈ ts, t < 100)
    (inst : ButtonInstance) (h0 : inst.tooltipTimeout = none) :
    (runEvents (rapidTrace ts) inst).2 = false := by
  induction ts generalizing inst with
  | nil => simp [rapidTrace, runEvents]
  | cons t ts ih =>
    have hsplit : rapidTrace (t :: ts) = rapidCycle t ++ rapidTrace ts := by
      simp [rapidTrace]
    have hc := rapidCycle_no_fire t (hts t (List.mem_cons_self t ts)) inst h0
    have h2 := ih (fun u hu => hts u (List.mem_cons_of_mem t hu)) _ hc.2
    rw [hsplit, runEvents_append]
    simp [hc.1, h2]

/-- C6: a pointer leave while not focused schedules the hide after the fixed
100 ms delay, whose elapse sets visibility disallowed and hovered false; a
pointer leave while focused schedules nothing; a pointer enter clears any
pending timer; and a rapid leave/enter sequence with every gap under 100 ms
never fires a hide. -/
theorem C6_debounced_hide (inst : ButtonInstance) (ts : List Nat) :
    (inst.state.isFocused = false →
      (handleMouseLeaveInst inst).tooltipTimeout = some 100 ∧
      tickTimer 100 (handleMouseLeaveInst inst) =
        ({ state :=
             { inst.state with
                 allowTooltipVisibility := false
                 isHovered := false }
           tooltipTimeout := none },
         true)) ∧
    (inst.state.isFocused = true → handleMouseLeaveInst inst = inst) ∧
    (∀ tgt, (handleMouseEnterInst tgt inst).tooltipTimeout = none) ∧
    ((∀ t ∈ ts, t < 100) → inst.tooltipTimeout = none →
      (runEvents (rapidTrace ts) inst).2 = false) := by
  refine ⟨?_, ?_, fun _ => rfl, fun h1 h2 => rapidTrace_no_fire ts h1 inst h2⟩
  · intro hf
    have hl : handleMouseLeaveInst inst = { inst with tooltipTimeout := some 100 } := by
      simp [handleMouseLeaveInst, hf]
    rw [hl]
    exact ⟨rfl, rfl⟩
  · intro hf
    simp [handleMouseLeaveInst, hf]

/-- A hovered, unfocused instance with no pending timer. -/
def instHoverNoFocus : ButtonInstance :=
  { state := { allowTooltipVisibility := true, isHovered := true,
               isFocused := false },
    tooltipTimeout := none }

/-- C6 witness: a leave schedules the 100 ms hide, and two rapid
leave/enter cycles (50 ms and 99 ms gaps) never fire a hide. -/
theorem C6_witness :
    (handleMouseLeaveInst instHoverNoFocus).tooltipTimeout = some 100 ∧
    (runEvents (rapidTrace [50, 99]) instHoverNoFocus).2 = false :=
  ⟨((C6_debounced_hide instHoverNoFocus [50, 99]).1 rfl).1,
   (C6_debounced_hide instHoverNoFocus [50, 99]).2.2.2 (by decide) rfl⟩

end CarbonButton
